import Mathlib

/-!
Shallow embedding of the evidence-strength classifier core
(`src/rubric/{studyTypes,causalMethods,threats,scoring}.ts` and
`src/rubric/featureExtractor.ts` feature record).  JavaScript numbers are
modelled as rationals (all constants in the rubric are exact decimals);
`Math.round` is modelled by Mathlib's `round` (both round half away from
minus infinity, i.e. half up); `Array.prototype.sort`, which ECMAScript
requires to be stable, is modelled by the stable `List.insertionSort` with
the non-strict comparator relation.
-/

namespace EvidenceStrength

/-- The `StudyType` union from `src/types.ts`. -/
inductive StudyType
  | rct
  | cluster_rct
  | quasi_experimental_did
  | quasi_experimental_rdd
  | quasi_experimental_iv
  | quasi_experimental_matching
  | quasi_experimental_synthetic_control
  | quasi_experimental_event_study
  | observational_cross_sectional
  | observational_cohort
  | observational_case_control
  | qualitative
  | mixed_methods
  | modeling_simulation
  | systematic_review
  | meta_analysis
  | unknown
deriving DecidableEq, Repr

/-- The `CausalMethod` union from `src/types.ts`. -/
inductive CausalMethod
  | randomization
  | difference_in_differences
  | regression_discontinuity
  | instrumental_variables
  | propensity_score_matching
  | synthetic_control
  | event_study
  | fixed_effects
  | selection_on_observables
  | meta_analytic
  | none
  | unknown
deriving DecidableEq, Repr

/-- The `Severity` union from `src/types.ts`. -/
inductive Severity
  | low
  | medium
  | high
deriving DecidableEq, Repr

/-- The `EvidenceGrade` union from `src/types.ts`. -/
inductive EvidenceGrade
  | veryStrong
  | strong
  | moderate
  | weak
  | veryWeak
deriving DecidableEq, Repr

/-- The `ExtractedFeatures` record (`src/types.ts`, plus the
`hasClusterDesign` flag that `extractFeatures` produces and the study-type
rules read).  `sampleSizeNumeric` is an integer because the extractor stores
`Math.round(baseNum)`. -/
structure ExtractedFeatures where
  hasRandomization : Bool
  hasPlacebo : Bool
  hasControlGroup : Bool
  hasBlinding : Bool
  hasBaseline : Bool
  hasClusterDesign : Bool
  hasDifferenceInDifferences : Bool
  hasParallelTrends : Bool
  hasFixedEffects : Bool
  hasInstrumentalVariable : Bool
  hasRegressionDiscontinuity : Bool
  hasMatchingPSM : Bool
  hasSyntheticControl : Bool
  hasEventStudy : Bool
  hasPowerCalculation : Bool
  hasPreRegistration : Bool
  hasRobustnessChecks : Bool
  hasBalanceTests : Bool
  hasSensitivityAnalysis : Bool
  hasCONSORT : Bool
  hasPRISMA : Bool
  hasDataAvailability : Bool
  hasCodeAvailability : Bool
  sampleSizeText : Option String
  sampleSizeNumeric : Option ℤ
  hasAttritionDiscussion : Bool
  hasSpilloverDiscussion : Bool
  hasSelectionBiasDiscussion : Bool
  hasExternalValidityDiscussion : Bool
  isSystematicReview : Bool
  isMetaAnalysis : Bool
  studyCountText : Option String
  hasValidatedInstruments : Bool
  hasAdminData : Bool
  hasSelfReport : Bool
  hasObjectiveMeasures : Bool
  matchedKeywords : List String
deriving DecidableEq, Repr

/-- The `RiskItem` record from `src/types.ts`. -/
structure RiskItem where
  risk : String
  severity : Severity
  reasoning : String
deriving DecidableEq, Repr

/-- The clamp `Math.max(0, Math.min(5, x))` used by every 0-5 score. -/
def clamp05 (q : ℚ) : ℚ := max 0 (min 5 q)

/-- Round to one decimal: `Math.round(x * 10) / 10`. -/
def roundTo1 (q : ℚ) : ℚ := ((round (q * 10) : ℤ) : ℚ) / 10

/-- Round to two decimals: `Math.round(x * 100) / 100`. -/
def roundTo2 (q : ℚ) : ℚ := ((round (q * 100) : ℤ) : ℚ) / 100

/-! ### Causal-strength rubric (`src/rubric/causalMethods.ts`) -/

/-- One entry of `strengthModifiers`.  In the source the `feature` field is
either a feature key or a predicate over the whole record; both are embedded
as a predicate (a key `k` becomes `fun f => f.k`). -/
structure StrengthModifier where
  cond : ExtractedFeatures → Bool
  modifier : ℚ
  description : String

/-- One entry of `METHOD_RUBRICS`. -/
structure MethodAssessment where
  baseStrength : ℚ
  strengthModifiers : List StrengthModifier
  requiredForStrong : List String
  commonWeaknesses : List String

/-- The table `METHOD_RUBRICS` from `src/rubric/causalMethods.ts`, as a total function
on the method enumeration. -/
def METHOD_RUBRICS : CausalMethod → MethodAssessment
  | .randomization =>
    { baseStrength := 4.5
      strengthModifiers :=
        [ ⟨fun f => f.hasBlinding, 0.3, "Blinding present"⟩,
          ⟨fun f => f.hasBalanceTests, 0.2, "Balance tests reported"⟩,
          ⟨fun f => f.hasPowerCalculation, 0.2, "Power calculation"⟩,
          ⟨fun f => f.hasAttritionDiscussion, 0.1, "Attrition addressed"⟩,
          ⟨fun f => f.hasPreRegistration, 0.2, "Pre-registered"⟩,
          ⟨fun f => decide (∃ n, f.sampleSizeNumeric = some n ∧ n < 100),
            -0.5, "Small sample size (<100)"⟩,
          ⟨fun f => decide (∃ n, f.sampleSizeNumeric = some n ∧ n < 30),
            -0.5, "Very small sample size (<30)"⟩ ]
      requiredForStrong := ["randomization", "control group"]
      commonWeaknesses :=
        ["attrition bias", "non-compliance", "spillovers", "Hawthorne effect"] }
  | .difference_in_differences =>
    { baseStrength := 3.5
      strengthModifiers :=
        [ ⟨fun f => f.hasParallelTrends, 0.5, "Parallel trends tested/discussed"⟩,
          ⟨fun f => f.hasEventStudy, 0.3, "Event study/dynamic effects shown"⟩,
          ⟨fun f => f.hasFixedEffects, 0.2, "Fixed effects used"⟩,
          ⟨fun f => f.hasRobustnessChecks, 0.3, "Robustness checks reported"⟩,
          ⟨fun f => f.hasSensitivityAnalysis, 0.2, "Sensitivity analysis"⟩,
          ⟨fun f => !f.hasParallelTrends, -0.5, "No parallel trends test"⟩ ]
      requiredForStrong :=
        ["difference-in-differences design", "parallel trends plausibility"]
      commonWeaknesses :=
        ["parallel trends violation", "anticipation effects",
         "composition changes", "treatment timing endogeneity"] }
  | .regression_discontinuity =>
    { baseStrength := 4.0
      strengthModifiers :=
        [ ⟨fun f => f.hasRobustnessChecks, 0.4, "Bandwidth sensitivity tested"⟩,
          ⟨fun f => f.hasSensitivityAnalysis, 0.3, "Manipulation tests"⟩,
          ⟨fun f => f.hasBalanceTests, 0.2, "Continuity of covariates"⟩,
          ⟨fun f => decide (∃ n, f.sampleSizeNumeric = some n ∧ n > 1000),
            0.2, "Large sample near cutoff"⟩ ]
      requiredForStrong :=
        ["clear discontinuity", "running variable", "manipulation tests"]
      commonWeaknesses :=
        ["manipulation of running variable", "bandwidth sensitivity",
         "local nature of estimate", "extrapolation concerns"] }
  | .instrumental_variables =>
    { baseStrength := 3.0
      strengthModifiers :=
        [ ⟨fun f => f.hasRobustnessChecks, 0.4, "Exclusion restriction discussed"⟩,
          ⟨fun f => f.hasSensitivityAnalysis, 0.3, "Weak instrument tests"⟩,
          ⟨fun f => decide (∃ n, f.sampleSizeNumeric = some n ∧ n > 1000),
            0.3, "Large sample size"⟩ ]
      requiredForStrong :=
        ["instrument relevance", "exclusion restriction argument",
         "first-stage F-stat"]
      commonWeaknesses :=
        ["weak instruments", "exclusion restriction violation",
         "monotonicity violation", "LATE interpretation"] }
  | .propensity_score_matching =>
    { baseStrength := 2.5
      strengthModifiers :=
        [ ⟨fun f => f.hasBalanceTests, 0.4, "Balance achieved post-matching"⟩,
          ⟨fun f => f.hasSensitivityAnalysis, 0.4, "Sensitivity to unobservables"⟩,
          ⟨fun f => f.hasRobustnessChecks, 0.3, "Multiple matching methods"⟩ ]
      requiredForStrong :=
        ["rich covariates", "balance achieved", "overlap/common support"]
      commonWeaknesses :=
        ["unobserved confounding", "model dependence", "lack of overlap",
         "selection on unobservables"] }
  | .synthetic_control =>
    { baseStrength := 3.5
      strengthModifiers :=
        [ ⟨fun f => f.hasRobustnessChecks, 0.4, "Placebo tests in space"⟩,
          ⟨fun f => f.hasSensitivityAnalysis, 0.3, "Leave-one-out tests"⟩,
          ⟨fun f => f.hasParallelTrends, 0.3, "Good pre-treatment fit shown"⟩ ]
      requiredForStrong :=
        ["good pre-treatment fit", "adequate donor pool", "placebo tests"]
      commonWeaknesses :=
        ["inadequate donor pool", "poor pre-fit", "treatment anticipation",
         "interference"] }
  | .event_study =>
    { baseStrength := 3.5
      strengthModifiers :=
        [ ⟨fun f => f.hasParallelTrends, 0.4, "Pre-trends shown flat"⟩,
          ⟨fun f => f.hasRobustnessChecks, 0.3, "Robustness to specification"⟩,
          ⟨fun f => f.hasFixedEffects, 0.2, "Unit and time fixed effects"⟩ ]
      requiredForStrong :=
        ["no pre-trends", "clear treatment timing", "appropriate controls"]
      commonWeaknesses :=
        ["pre-trends", "heterogeneous treatment timing", "negative weights"] }
  | .fixed_effects =>
    { baseStrength := 2.0
      strengthModifiers :=
        [ ⟨fun f => f.hasRobustnessChecks, 0.3, "Robustness checks"⟩,
          ⟨fun f => decide (∃ n, f.sampleSizeNumeric = some n ∧ n > 500),
            0.2, "Reasonable sample"⟩ ]
      requiredForStrong := ["within-variation argument", "time-varying treatment"]
      commonWeaknesses :=
        ["time-varying unobservables", "reverse causality",
         "limited within-variation", "strict exogeneity"] }
  | .selection_on_observables =>
    { baseStrength := 1.5
      strengthModifiers :=
        [ ⟨fun f => f.hasBalanceTests, 0.2, "Controls for observables"⟩,
          ⟨fun f => f.hasRobustnessChecks, 0.2, "Specification robustness"⟩,
          ⟨fun f => f.hasSensitivityAnalysis, 0.3, "Sensitivity analysis"⟩ ]
      requiredForStrong :=
        ["rich controls", "theoretical justification for no unobserved confounding"]
      commonWeaknesses :=
        ["omitted variable bias", "reverse causality", "selection bias",
         "confounding"] }
  | .meta_analytic =>
    { baseStrength := 3.5
      strengthModifiers :=
        [ ⟨fun f => f.hasPRISMA, 0.3, "PRISMA guidelines followed"⟩,
          ⟨fun f => f.hasRobustnessChecks, 0.3, "Heterogeneity analysis"⟩,
          ⟨fun f => f.hasSensitivityAnalysis, 0.3, "Publication bias tests"⟩,
          ⟨fun f => f.hasPreRegistration, 0.2, "Protocol registered"⟩ ]
      requiredForStrong :=
        ["systematic search", "quality assessment", "heterogeneity analysis"]
      commonWeaknesses :=
        ["publication bias", "heterogeneity", "garbage in garbage out",
         "quality variation"] }
  | .none =>
    { baseStrength := 1.0
      strengthModifiers := []
      requiredForStrong := []
      commonWeaknesses := ["no causal identification strategy"] }
  | .unknown =>
    { baseStrength := 1.0
      strengthModifiers := []
      requiredForStrong := []
      commonWeaknesses := ["unclear methodology"] }

/-- The score component of `assessCausalStrength`: baseline, plus the
modifier of every entry whose condition holds, clamped to [0,5] and rounded
to one decimal.  (The `justification` string built alongside in the source is
not needed by any claim and is not embedded.) -/
def assessCausalStrength (m : CausalMethod) (f : ExtractedFeatures) : ℚ :=
  roundTo1 (clamp05
    ((METHOD_RUBRICS m).strengthModifiers.foldl
      (fun s mo => if mo.cond f then s + mo.modifier else s)
      (METHOD_RUBRICS m).baseStrength))

/-! ### Study-type detection (`src/rubric/studyTypes.ts`) -/

/-- One entry of `STUDY_TYPE_RULES`. -/
structure StudyTypeRule where
  type : StudyType
  priority : ℕ
  check : ExtractedFeatures → Bool

/-- The list `STUDY_TYPE_RULES`, in declaration order. -/
def STUDY_TYPE_RULES : List StudyTypeRule :=
  [ ⟨.meta_analysis, 100, fun f => f.isMetaAnalysis⟩,
    ⟨.systematic_review, 95, fun f => f.isSystematicReview && !f.isMetaAnalysis⟩,
    ⟨.cluster_rct, 90, fun f =>
      f.hasRandomization && f.hasControlGroup && f.hasClusterDesign &&
      !f.hasInstrumentalVariable && !f.hasRegressionDiscontinuity &&
      !f.hasDifferenceInDifferences && !f.hasSyntheticControl⟩,
    ⟨.rct, 85, fun f =>
      f.hasRandomization && (f.hasControlGroup || f.hasPlacebo) &&
      !f.hasInstrumentalVariable && !f.hasRegressionDiscontinuity &&
      !f.hasDifferenceInDifferences && !f.hasSyntheticControl⟩,
    ⟨.quasi_experimental_synthetic_control, 80, fun f => f.hasSyntheticControl⟩,
    ⟨.quasi_experimental_rdd, 75, fun f => f.hasRegressionDiscontinuity⟩,
    ⟨.quasi_experimental_iv, 70, fun f => f.hasInstrumentalVariable⟩,
    ⟨.quasi_experimental_event_study, 65, fun f =>
      f.hasEventStudy && !f.hasDifferenceInDifferences⟩,
    ⟨.quasi_experimental_did, 60, fun f =>
      f.hasDifferenceInDifferences || (f.hasFixedEffects && f.hasParallelTrends)⟩,
    ⟨.quasi_experimental_matching, 55, fun f =>
      f.hasMatchingPSM && !f.hasRandomization⟩,
    ⟨.observational_cohort, 40, fun f =>
      f.hasBaseline && !f.hasRandomization && !f.hasDifferenceInDifferences &&
      !f.hasInstrumentalVariable && !f.hasRegressionDiscontinuity⟩,
    ⟨.observational_cross_sectional, 30, fun f =>
      !f.hasRandomization && !f.hasDifferenceInDifferences &&
      !f.hasInstrumentalVariable && !f.hasRegressionDiscontinuity &&
      !f.hasBaseline && (f.sampleSizeNumeric.isSome || f.hasSelfReport)⟩ ]

/-- The for-loop of `detectStudyType`: first rule whose check fires, else
`unknown`. -/
def firstMatchingRule : List StudyTypeRule → ExtractedFeatures → StudyType
  | [], _ => .unknown
  | r :: rs, f => if r.check f then r.type else firstMatchingRule rs f

/-- The function `detectStudyType`: sort the rules by descending priority (the source uses
the stable `Array.sort` with comparator `b.priority - a.priority`) and take
the first match. -/
def detectStudyType (f : ExtractedFeatures) : StudyType :=
  firstMatchingRule
    (List.insertionSort (fun a b : StudyTypeRule => b.priority ≤ a.priority)
      STUDY_TYPE_RULES) f

/-- The function `detectCausalMethod`: the static study-type → method table, then the
fixed-effects / matching fallbacks, then `selection_on_observables` for
observational types, else `unknown`. -/
def detectCausalMethod (f : ExtractedFeatures) (st : StudyType) : CausalMethod :=
  match st with
  | .rct => .randomization
  | .cluster_rct => .randomization
  | .quasi_experimental_did => .difference_in_differences
  | .quasi_experimental_rdd => .regression_discontinuity
  | .quasi_experimental_iv => .instrumental_variables
  | .quasi_experimental_matching => .propensity_score_matching
  | .quasi_experimental_synthetic_control => .synthetic_control
  | .quasi_experimental_event_study => .event_study
  | .meta_analysis => .meta_analytic
  | .systematic_review => .meta_analytic
  | _ =>
    if f.hasFixedEffects then .fixed_effects
    else if f.hasMatchingPSM then .propensity_score_matching
    else if st = .observational_cohort ∨ st = .observational_cross_sectional ∨
            st = .observational_case_control then .selection_on_observables
    else .unknown

/-! ### Threat identification (`src/rubric/threats.ts`) -/

/-- The `applicableTo` field of a threat definition: either `'all'` or an
explicit list of study types. -/
inductive Applicability
  | all
  | only (types : List StudyType)

/-- One entry of `THREAT_DEFINITIONS`.  A missing `excludedMethods` field in
the source is the empty list here. -/
structure ThreatDefinition where
  name : String
  applicableTo : Applicability
  excludedMethods : List CausalMethod
  checkSeverity : ExtractedFeatures → StudyType → Option Severity
  reasoning : ExtractedFeatures → String

/-- Entry of `THREAT_DEFINITIONS` (src/rubric/threats.ts). -/
def threatSelectionBias : ThreatDefinition :=
  { name := "Selection bias"
    applicableTo := .all
    excludedMethods := [.randomization]
    checkSeverity := fun f st =>
      if st = .rct ∨ st = .cluster_rct then Option.none
      else if f.hasMatchingPSM && f.hasBalanceTests then some .low
      else if f.hasMatchingPSM then some .medium
      else if f.hasSelectionBiasDiscussion then some .medium
      else some .high
    reasoning := fun f =>
      if f.hasMatchingPSM && f.hasBalanceTests then
        "Matching with balance verification partially addresses selection, but unobserved confounding remains possible."
      else if f.hasMatchingPSM then
        "Matching attempted but balance not clearly demonstrated."
      else if f.hasSelectionBiasDiscussion then
        "Selection bias acknowledged but not fully addressed through design."
      else
        "Non-random assignment without clear identification strategy raises selection concerns." }

/-- Entry of `THREAT_DEFINITIONS` (src/rubric/threats.ts). -/
def threatAttritionBias : ThreatDefinition :=
  { name := "Attrition bias"
    applicableTo := .only [.rct, .cluster_rct, .observational_cohort]
    excludedMethods := []
    checkSeverity := fun f _ =>
      if f.hasAttritionDiscussion && f.hasSensitivityAnalysis then some .low
      else if f.hasAttritionDiscussion then some .medium
      else some .medium
    reasoning := fun f =>
      if f.hasAttritionDiscussion && f.hasSensitivityAnalysis then
        "Attrition discussed with bounds/sensitivity analysis."
      else if f.hasAttritionDiscussion then
        "Attrition mentioned but robustness to differential attrition unclear."
      else
        "No discussion of attrition detected; potential for differential dropout." }

/-- Entry of `THREAT_DEFINITIONS` (src/rubric/threats.ts). -/
def threatParallelTrends : ThreatDefinition :=
  { name := "Parallel trends violation"
    applicableTo := .only [.quasi_experimental_did, .quasi_experimental_event_study]
    excludedMethods := []
    checkSeverity := fun f _ =>
      if f.hasParallelTrends && f.hasEventStudy then some .low
      else if f.hasParallelTrends then some .low
      else some .high
    reasoning := fun f =>
      if f.hasParallelTrends && f.hasEventStudy then
        "Parallel trends tested with event study showing pre-trends."
      else if f.hasParallelTrends then
        "Parallel trends assumption discussed/tested."
      else
        "No evidence of parallel trends testing; key identification assumption untested." }

/-- Entry of `THREAT_DEFINITIONS` (src/rubric/threats.ts). -/
def threatWeakInstruments : ThreatDefinition :=
  { name := "Weak instruments"
    applicableTo := .only [.quasi_experimental_iv]
    excludedMethods := []
    checkSeverity := fun f _ =>
      if f.hasRobustnessChecks then some .medium else some .high
    reasoning := fun f =>
      if f.hasRobustnessChecks then
        "Some instrument strength diagnostics may be present."
      else
        "Instrument strength not clearly demonstrated; risk of weak instrument bias." }

/-- Entry of `THREAT_DEFINITIONS` (src/rubric/threats.ts). -/
def threatExclusionRestriction : ThreatDefinition :=
  { name := "Exclusion restriction violation"
    applicableTo := .only [.quasi_experimental_iv]
    excludedMethods := []
    checkSeverity := fun _ _ => some .medium
    reasoning := fun _ =>
      "Exclusion restriction is inherently untestable; relies on theoretical argument." }

/-- Entry of `THREAT_DEFINITIONS` (src/rubric/threats.ts). -/
def threatManipulation : ThreatDefinition :=
  { name := "Running variable manipulation"
    applicableTo := .only [.quasi_experimental_rdd]
    excludedMethods := []
    checkSeverity := fun f _ =>
      if f.hasSensitivityAnalysis || f.hasRobustnessChecks then some .low
      else some .medium
    reasoning := fun f =>
      if f.hasSensitivityAnalysis || f.hasRobustnessChecks then
        "Manipulation tests or density checks may be present."
      else
        "No clear mention of manipulation tests; sorting around cutoff is a concern." }

/-- Entry of `THREAT_DEFINITIONS` (src/rubric/threats.ts). -/
def threatSpillover : ThreatDefinition :=
  { name := "Spillover/SUTVA violation"
    applicableTo := .only [.rct, .cluster_rct, .quasi_experimental_did]
    excludedMethods := []
    checkSeverity := fun f _ =>
      if f.hasSpilloverDiscussion then some .low else some .medium
    reasoning := fun f =>
      if f.hasSpilloverDiscussion then
        "Spillovers acknowledged and potentially addressed."
      else
        "No discussion of spillovers; treatment effects may contaminate control group." }

/-- Entry of `THREAT_DEFINITIONS` (src/rubric/threats.ts). -/
def threatMeasurementError : ThreatDefinition :=
  { name := "Measurement error"
    applicableTo := .all
    excludedMethods := []
    checkSeverity := fun f _ =>
      if f.hasAdminData || f.hasObjectiveMeasures then some .low
      else if f.hasValidatedInstruments then some .low
      else if f.hasSelfReport then some .medium
      else some .medium
    reasoning := fun f =>
      if f.hasAdminData || f.hasObjectiveMeasures then
        "Objective/administrative measures reduce measurement concerns."
      else if f.hasValidatedInstruments then
        "Validated instruments used for measurement."
      else if f.hasSelfReport then
        "Self-reported outcomes subject to recall bias and social desirability."
      else
        "Measurement approach unclear." }

/-- Entry of `THREAT_DEFINITIONS` (src/rubric/threats.ts). -/
def threatMultipleTesting : ThreatDefinition :=
  { name := "Multiple hypothesis testing"
    applicableTo := .all
    excludedMethods := []
    checkSeverity := fun f _ =>
      if f.hasPreRegistration then some .low
      else if f.hasRobustnessChecks then some .medium
      else some .medium
    reasoning := fun f =>
      if f.hasPreRegistration then
        "Pre-registration reduces risk of specification searching."
      else if f.hasRobustnessChecks then
        "Multiple specifications shown, reducing cherry-picking concerns."
      else
        "No pre-registration; potential for selective reporting." }

/-- Entry of `THREAT_DEFINITIONS` (src/rubric/threats.ts). -/
def threatPublicationBias : ThreatDefinition :=
  { name := "Publication bias"
    applicableTo := .only [.systematic_review, .meta_analysis]
    excludedMethods := []
    checkSeverity := fun f _ =>
      if f.hasSensitivityAnalysis then some .low else some .medium
    reasoning := fun f =>
      if f.hasSensitivityAnalysis then
        "Publication bias tests (funnel plot, Egger, etc.) may be present."
      else
        "Meta-analyses vulnerable to publication bias; tests not clearly mentioned." }

/-- Entry of `THREAT_DEFINITIONS` (src/rubric/threats.ts). -/
def threatGeneralizability : ThreatDefinition :=
  { name := "Limited generalizability"
    applicableTo := .all
    excludedMethods := []
    checkSeverity := fun f _ =>
      if f.hasExternalValidityDiscussion then some .low
      else if decide (∃ n, f.sampleSizeNumeric = some n ∧ n ≠ 0 ∧ n > 10000)
        then some .low
      else some .medium
    reasoning := fun f =>
      if f.hasExternalValidityDiscussion then
        "External validity explicitly discussed."
      else if decide (∃ n, f.sampleSizeNumeric = some n ∧ n ≠ 0 ∧ n > 10000) then
        "Large sample may improve representativeness."
      else
        "Generalizability to other contexts unclear." }

/-- Entry of `THREAT_DEFINITIONS` (src/rubric/threats.ts). -/
def threatUnobservedConfounding : ThreatDefinition :=
  { name := "Unobserved confounding"
    applicableTo := .only
      [.observational_cohort, .observational_cross_sectional,
       .observational_case_control, .quasi_experimental_matching]
    excludedMethods := []
    checkSeverity := fun f _ =>
      if f.hasSensitivityAnalysis then some .medium else some .high
    reasoning := fun f =>
      if f.hasSensitivityAnalysis then
        "Sensitivity analysis to unobservables conducted (e.g., Oster, Rosenbaum bounds)."
      else
        "Observational design cannot rule out unobserved confounders." }

/-- The list `THREAT_DEFINITIONS`, in declaration order. -/
def THREAT_DEFINITIONS : List ThreatDefinition :=
  [threatSelectionBias, threatAttritionBias, threatParallelTrends, threatWeakInstruments, threatExclusionRestriction, threatManipulation, threatSpillover, threatMeasurementError, threatMultipleTesting, threatPublicationBias, threatGeneralizability, threatUnobservedConfounding]

/-- Whether a threat's `applicableTo` set covers a study type. -/
def appliesToStudy (a : Applicability) (st : StudyType) : Prop :=
  match a with
  | .all => True
  | .only l => st ∈ l

instance (a : Applicability) (st : StudyType) : Decidable (appliesToStudy a st) := by
  unfold appliesToStudy
  cases a <;> infer_instance

/-- The body of the `identifyThreats` loop for one threat definition:
`some` risk item if the threat applies to the study type, the method is not
excluded, and the severity function returns non-null. -/
def emitThreat (st : StudyType) (m : CausalMethod) (f : ExtractedFeatures)
    (t : ThreatDefinition) : Option RiskItem :=
  if appliesToStudy t.applicableTo st ∧ m ∉ t.excludedMethods then
    (t.checkSeverity f st).map (fun sev => ⟨t.name, sev, t.reasoning f⟩)
  else Option.none

/-- The risk list accumulated by the `identifyThreats` loop before sorting,
in threat-catalogue declaration order. -/
def emittedRisks (st : StudyType) (m : CausalMethod) (f : ExtractedFeatures) :
    List RiskItem :=
  THREAT_DEFINITIONS.filterMap (emitThreat st m f)

/-- The map `severityOrder` from `identifyThreats`: high 0, medium 1, low 2. -/
def severityOrder : Severity → ℕ
  | .high => 0
  | .medium => 1
  | .low => 2

/-- The comparator relation of the risk sort: `a` may precede `b` when
`severityOrder[a] - severityOrder[b] ≤ 0`. -/
def sevLE (a b : RiskItem) : Prop :=
  severityOrder a.severity ≤ severityOrder b.severity

instance : DecidableRel sevLE := fun _ _ => Nat.decLe _ _

instance : IsTotal RiskItem sevLE := ⟨fun _ _ => Nat.le_total _ _⟩

instance : IsTrans RiskItem sevLE := ⟨fun _ _ _ h h2 => Nat.le_trans h h2⟩

/-- The function `identifyThreats`: emit the applicable risks in catalogue order, then
sort by ascending `severityOrder` (high first) with the stable
`Array.sort`. -/
def identifyThreats (st : StudyType) (m : CausalMethod) (f : ExtractedFeatures) :
    List RiskItem :=
  List.insertionSort sevLE (emittedRisks st m f)

/-! ### Scoring (`src/rubric/scoring.ts`) -/

/-- The score component of `calculateExternalValidity` (the `notes` string is
not needed by any claim and is not embedded). -/
def calculateExternalValidity (f : ExtractedFeatures) : ℚ :=
  let score : ℚ := 2.5
  let score :=
    match f.sampleSizeNumeric with
    | some n =>
      if n ≥ 10000 then score + 1.0
      else if n ≥ 1000 then score + 0.5
      else if n < 100 then score - 0.5
      else score
    | Option.none => score
  let score := if f.hasExternalValidityDiscussion then score + 0.5 else score
  let score := if f.isMetaAnalysis || f.isSystematicReview then score + 0.5 else score
  roundTo1 (clamp05 score)

/-- The score component of `calculateMeasurementQuality`. -/
def calculateMeasurementQuality (f : ExtractedFeatures) : ℚ :=
  let score : ℚ := 2.5
  let score := if f.hasAdminData then score + 1.0 else score
  let score := if f.hasObjectiveMeasures then score + 0.75 else score
  let score := if f.hasValidatedInstruments then score + 0.5 else score
  let score :=
    if f.hasSelfReport && !f.hasObjectiveMeasures && !f.hasAdminData
    then score - 0.5 else score
  roundTo1 (clamp05 score)

/-- The score component of `calculateTransparency`. -/
def calculateTransparency (f : ExtractedFeatures) : ℚ :=
  let score : ℚ := 1.5
  let score := if f.hasPreRegistration then score + 1.0 else score
  let score := if f.hasDataAvailability then score + 0.75 else score
  let score := if f.hasCodeAvailability then score + 0.5 else score
  let score := if f.hasCONSORT then score + 0.5 else score
  let score := if f.hasPRISMA then score + 0.5 else score
  let score := if f.hasRobustnessChecks then score + 0.5 else score
  let score := if f.hasSensitivityAnalysis then score + 0.25 else score
  roundTo1 (clamp05 score)

/-- The function `calculateOverallGrade`: risks → internal score, weighted sum of the five
components, thresholds to a grade. -/
def calculateOverallGrade (causalStrength : ℚ) (internalValidityRisks : List RiskItem)
    (externalValidity measurementQuality transparency : ℚ) : EvidenceGrade :=
  let highRisks : ℚ :=
    (internalValidityRisks.filter (fun r => r.severity = .high)).length
  let medRisks : ℚ :=
    (internalValidityRisks.filter (fun r => r.severity = .medium)).length
  let internalScore := max 0 (min 5 (5 - highRisks * 1.5 - medRisks * 0.5))
  let weightedScore :=
    causalStrength * 0.40 + internalScore * 0.25 + externalValidity * 0.15 +
    measurementQuality * 0.10 + transparency * 0.10
  if weightedScore ≥ 4.2 then .veryStrong
  else if weightedScore ≥ 3.4 then .strong
  else if weightedScore ≥ 2.5 then .moderate
  else if weightedScore ≥ 1.5 then .weak
  else .veryWeak

/-- The function `calculateConfidence`. -/
def calculateConfidence (f : ExtractedFeatures) : ℚ :=
  let confidence : ℚ := 0.3
  let confidence := confidence + min 0.3 ((f.matchedKeywords.length : ℚ) * 0.03)
  let confidence := if f.sampleSizeNumeric.isSome then confidence + 0.1 else confidence
  let confidence :=
    if f.hasRandomization || f.hasDifferenceInDifferences ||
       f.hasInstrumentalVariable || f.hasRegressionDiscontinuity ||
       f.isMetaAnalysis
    then confidence + 0.15 else confidence
  let confidence := if f.hasRobustnessChecks then confidence + 0.05 else confidence
  let confidence := if f.hasPreRegistration then confidence + 0.05 else confidence
  let confidence := if f.hasBalanceTests then confidence + 0.05 else confidence
  min 1 (roundTo2 confidence)

/-- The function `generateRecommendedUse` (the `highRiskCount` parameter is present in the
source signature but never read in its body). -/
def generateRecommendedUse (grade : EvidenceGrade) (causalStrength : ℚ)
    (highRiskCount : ℕ) : String :=
  match grade with
  | .veryStrong =>
    "Suitable for quantitative decision-making and policy. High confidence in causal claims."
  | .strong =>
    "Good basis for directional conclusions. Quantitative estimates should be treated with some caution."
  | .moderate =>
    if causalStrength ≥ 3 then
      "Useful for directional insight. Recommend triangulation with other evidence before quantification."
    else
      "Provides suggestive evidence. Should be combined with other studies before drawing conclusions."
  | .weak =>
    "Exploratory or hypothesis-generating only. Not suitable for causal claims or quantification without substantial additional evidence."
  | .veryWeak =>
    "Very limited evidentiary value. Useful only for generating hypotheses. Do not use for decision-making."

/-! ### Follow-up questions (`src/rubric/threats.ts`) -/

/-- The full ordered checklist built by `generateFollowUpQuestions` before
truncation (each conditional `push` becomes a conditional singleton or pair).
The `studyType` parameter appears in the source signature but is never read. -/
def followUpChecklist (_st : StudyType) (m : CausalMethod)
    (f : ExtractedFeatures) (risks : List RiskItem) : List String :=
  (if f.sampleSizeNumeric = Option.none then ["What is the sample size?"] else [])
  ++ (if m = .difference_in_differences ∧ f.hasParallelTrends = false then
        ["Is there evidence supporting the parallel trends assumption?"] else [])
  ++ (if m = .instrumental_variables then
        ["What is the first-stage F-statistic for instrument strength?",
         "What is the theoretical argument for the exclusion restriction?"] else [])
  ++ (if m = .regression_discontinuity ∧ f.hasSensitivityAnalysis = false then
        ["Were manipulation/McCrary tests conducted?",
         "How sensitive are results to bandwidth choice?"] else [])
  ++ (if m = .randomization ∧ f.hasAttritionDiscussion = false then
        ["What was the attrition rate and was it differential?"] else [])
  ++ (if f.hasPreRegistration = false then ["Was the analysis pre-registered?"] else [])
  ++ (if f.hasRobustnessChecks = false then
        ["Were robustness checks or alternative specifications explored?"] else [])
  ++ (let highRisks := risks.filter (fun r => r.severity = .high)
      if highRisks.length > 0 then
        ["How does the study address: " ++
          String.intercalate ", " (highRisks.map (fun r => r.risk.toLower)) ++ "?"]
      else [])
  ++ (if f.hasExternalValidityDiscussion = false then
        ["What population/context do these results generalize to?"] else [])

/-- The function `generateFollowUpQuestions`: the checklist truncated to its first 5
entries. -/
def generateFollowUpQuestions (st : StudyType) (m : CausalMethod)
    (f : ExtractedFeatures) (risks : List RiskItem) : List String :=
  (followUpChecklist st m f risks).take 5

/-! ### Specification-side definitions (written from the spec wording, for
refinement comparison with the source embeddings above) -/

/-- The overall grade exactly as the spec describes it: internal score
`5 − 1.5×(#high) − 0.5×(#medium)` clamped to [0,5], weighted sum
`0.40×causal + 0.25×internal + 0.15×external + 0.10×measurement +
0.10×transparency`, then thresholds 4.2 / 3.4 / 2.5 / 1.5. -/
def overallGradeSpec (causalStrength : ℚ) (risks : List RiskItem)
    (externalValidity measurementQuality transparency : ℚ) : EvidenceGrade :=
  let nHigh : ℚ := (risks.filter (fun r => r.severity = .high)).length
  let nMed : ℚ := (risks.filter (fun r => r.severity = .medium)).length
  let internalScore := max 0 (min 5 (5 - 1.5 * nHigh - 0.5 * nMed))
  let w := 0.40 * causalStrength + 0.25 * internalScore +
    0.15 * externalValidity + 0.10 * measurementQuality + 0.10 * transparency
  if w ≥ 4.2 then .veryStrong
  else if w ≥ 3.4 then .strong
  else if w ≥ 2.5 then .moderate
  else if w ≥ 1.5 then .weak
  else .veryWeak

/-- The external-validity score exactly as the spec describes it: baseline
2.5; +1.0 if the detected sample size is ≥ 10,000, else +0.5 if ≥ 1,000,
else −0.5 if < 100; +0.5 if external validity is discussed; +0.5 if the
study is a systematic review or meta-analysis; clamp to [0,5] and round to
one decimal. -/
def externalValiditySpec (f : ExtractedFeatures) : ℚ :=
  let sampleAdj : ℚ :=
    match f.sampleSizeNumeric with
    | some n => if n ≥ 10000 then 1.0 else if n ≥ 1000 then 0.5
                else if n < 100 then -0.5 else 0
    | Option.none => 0
  roundTo1 (clamp05 (2.5 + sampleAdj +
    (if f.hasExternalValidityDiscussion then 0.5 else 0) +
    (if f.isSystematicReview ∨ f.isMetaAnalysis then 0.5 else 0)))

/-! ### Concrete feature records used by the witnesses -/

/-- A feature record with every flag false and nothing detected. -/
def baseFeatures : ExtractedFeatures :=
  { hasRandomization := false, hasPlacebo := false, hasControlGroup := false
    hasBlinding := false, hasBaseline := false, hasClusterDesign := false
    hasDifferenceInDifferences := false, hasParallelTrends := false
    hasFixedEffects := false, hasInstrumentalVariable := false
    hasRegressionDiscontinuity := false, hasMatchingPSM := false
    hasSyntheticControl := false, hasEventStudy := false
    hasPowerCalculation := false, hasPreRegistration := false
    hasRobustnessChecks := false, hasBalanceTests := false
    hasSensitivityAnalysis := false, hasCONSORT := false, hasPRISMA := false
    hasDataAvailability := false, hasCodeAvailability := false
    sampleSizeText := Option.none, sampleSizeNumeric := Option.none
    hasAttritionDiscussion := false, hasSpilloverDiscussion := false
    hasSelectionBiasDiscussion := false, hasExternalValidityDiscussion := false
    isSystematicReview := false, isMetaAnalysis := false
    studyCountText := Option.none
    hasValidatedInstruments := false, hasAdminData := false
    hasSelfReport := false, hasObjectiveMeasures := false
    matchedKeywords := [] }

/-- A feature record mentioning both randomization and an instrument. -/
def ivRandomFeatures : ExtractedFeatures :=
  { baseFeatures with
    hasRandomization := true, hasControlGroup := true
    hasInstrumentalVariable := true }

/-! ## Theorems -/

/-- Rounding on rationals is monotone. -/
theorem round_mono_rat {x y : ℚ} (h : x ≤ y) : round x ≤ round y := by
  rw [round_eq, round_eq]
  exact Int.floor_mono (by linarith)

/-- The clamp is nonnegative. -/
theorem clamp05_nonneg (q : ℚ) : 0 ≤ clamp05 q := le_max_left _ _

/-- The clamp is at most 5. -/
theorem clamp05_le_five (q : ℚ) : clamp05 q ≤ 5 :=
  max_le (by norm_num) (min_le_left _ _)

/-- The clamp is monotone. -/
theorem clamp05_mono {x y : ℚ} (h : x ≤ y) : clamp05 x ≤ clamp05 y :=
  max_le_max le_rfl (min_le_min le_rfl h)

/-- Clamp-then-round-to-one-decimal stays nonnegative. -/
theorem roundTo1_clamp05_nonneg (q : ℚ) : 0 ≤ roundTo1 (clamp05 q) := by
  unfold roundTo1
  have h0 : (0:ℤ) ≤ round (clamp05 q * 10) := by
    rw [round_eq]
    exact Int.floor_nonneg.mpr (by nlinarith [clamp05_nonneg q])
  have : (0:ℚ) ≤ ((round (clamp05 q * 10) : ℤ) : ℚ) := by exact_mod_cast h0
  linarith

/-- Clamp-then-round-to-one-decimal stays at most 5. -/
theorem roundTo1_clamp05_le_five (q : ℚ) : roundTo1 (clamp05 q) ≤ 5 := by
  unfold roundTo1
  have h1 : round (clamp05 q * 10) < (51:ℤ) := by
    rw [round_eq, Int.floor_lt]
    push_cast
    nlinarith [clamp05_le_five q]
  have : ((round (clamp05 q * 10) : ℤ) : ℚ) ≤ 50 := by exact_mod_cast Int.lt_add_one_iff.mp h1
  linarith

/-- Clamp-then-round-to-one-decimal is monotone. -/
theorem roundTo1_clamp05_mono {x y : ℚ} (h : x ≤ y) :
    roundTo1 (clamp05 x) ≤ roundTo1 (clamp05 y) := by
  unfold roundTo1
  have hc : clamp05 x * 10 ≤ clamp05 y * 10 := by nlinarith [clamp05_mono h]
  have := round_mono_rat hc
  have hq : ((round (clamp05 x * 10) : ℤ) : ℚ) ≤ ((round (clamp05 y * 10) : ℤ) : ℚ) := by
    exact_mod_cast this
  linarith

/-- Rounding to two decimals preserves nonnegativity. -/
theorem roundTo2_nonneg {q : ℚ} (h : 0 ≤ q) : 0 ≤ roundTo2 q := by
  unfold roundTo2
  have h0 : (0:ℤ) ≤ round (q * 100) := by
    rw [round_eq]
    exact Int.floor_nonneg.mpr (by nlinarith)
  have : (0:ℚ) ≤ ((round (q * 100) : ℤ) : ℚ) := by exact_mod_cast h0
  linarith

/-- C1: the overall evidence grade is the spec's weighted-sum-and-threshold
computation of the five components, with the internal-validity score derived
from the risk list as `5 − 1.5×#high − 0.5×#medium` clamped to [0,5]. -/
theorem overall_grade_matches_spec (cs : ℚ) (risks : List RiskItem) (ev mq tr : ℚ) :
    calculateOverallGrade cs risks ev mq tr = overallGradeSpec cs risks ev mq tr := by
  simp only [calculateOverallGrade, overallGradeSpec]
  rw [show ∀ a b : ℚ, 5 - a * 1.5 - b * 0.5 = 5 - 1.5 * a - 0.5 * b from fun a b => by ring]
  rw [show ∀ a b c d e : ℚ, a * 0.40 + b * 0.25 + c * 0.15 + d * 0.10 + e * 0.10
        = 0.40 * a + 0.25 * b + 0.15 * c + 0.10 * d + 0.10 * e from
      fun a b c d e => by ring]

/-- C7: the code's external-validity score coincides with the spec's
baseline-plus-adjustments description. -/
theorem external_validity_matches_spec (f : ExtractedFeatures) :
    calculateExternalValidity f = externalValiditySpec f := by
  unfold calculateExternalValidity externalValiditySpec
  simp only [Bool.or_eq_true]
  simp only [or_comm (a := f.isMetaAnalysis = true) (b := f.isSystematicReview = true)]
  cases h : f.sampleSizeNumeric with
  | none =>
    simp only [h]
    split_ifs <;> norm_num
  | some n =>
    simp only [h]
    split_ifs <;> norm_num

/-- C10: `generateRecommendedUse` ignores its high-risk-count argument, and
its result depends only on the grade plus, for the Moderate grade, on
whether causal strength is at least 3. -/
theorem recommended_use_depends_only_on_grade_and_strength (g : EvidenceGrade)
    (cs cs' : ℚ) (h1 h2 : ℕ) :
    generateRecommendedUse g cs h1 = generateRecommendedUse g cs h2 ∧
    ((g = .moderate → (cs ≥ 3 ↔ cs' ≥ 3)) →
      generateRecommendedUse g cs h1 = generateRecommendedUse g cs' h2) := by
  refine ⟨rfl, fun hmod => ?_⟩
  cases g <;> try rfl
  have hiff := hmod rfl
  by_cases hc : cs ≥ 3
  · have hc' : cs' ≥ 3 := hiff.mp hc
    simp [generateRecommendedUse, hc, hc']
  · have hc' : ¬ cs' ≥ 3 := fun h => hc (hiff.mpr h)
    simp [generateRecommendedUse, hc, hc']

/-- Witness for C10 at the Moderate grade with strengths 3 and 4. -/
theorem recommended_use_witness :
    generateRecommendedUse .moderate 3 0 = generateRecommendedUse .moderate 4 7 :=
  (recommended_use_depends_only_on_grade_and_strength .moderate 3 4 0 7).2
    (fun _ => by norm_num)

/-- C9: every decision function is unchanged when only `matchedKeywords` is
replaced; the confidence depends on `matchedKeywords` only through its
length. -/
theorem matched_keywords_noninterference (f : ExtractedFeatures)
    (ks ks' : List String) (st : StudyType) (m : CausalMethod) :
    detectStudyType { f with matchedKeywords := ks } =
      detectStudyType { f with matchedKeywords := ks' } ∧
    detectCausalMethod { f with matchedKeywords := ks } st =
      detectCausalMethod { f with matchedKeywords := ks' } st ∧
    assessCausalStrength m { f with matchedKeywords := ks } =
      assessCausalStrength m { f with matchedKeywords := ks' } ∧
    identifyThreats st m { f with matchedKeywords := ks } =
      identifyThreats st m { f with matchedKeywords := ks' } ∧
    calculateExternalValidity { f with matchedKeywords := ks } =
      calculateExternalValidity { f with matchedKeywords := ks' } ∧
    calculateMeasurementQuality { f with matchedKeywords := ks } =
      calculateMeasurementQuality { f with matchedKeywords := ks' } ∧
    calculateTransparency { f with matchedKeywords := ks } =
      calculateTransparency { f with matchedKeywords := ks' } ∧
    (ks.length = ks'.length →
      calculateConfidence { f with matchedKeywords := ks } =
        calculateConfidence { f with matchedKeywords := ks' }) := by
  cases f
  refine ⟨rfl, ?_, ?_, rfl, rfl, rfl, rfl, ?_⟩
  · cases st <;> rfl
  · cases m <;> rfl
  · intro hl
    simp only [calculateConfidence]
    rw [hl]

/-- Witness for C9 at concrete keyword lists of equal length. -/
theorem matched_keywords_noninterference_witness :
    (["a", "b"] : List String).length = (["c", "d"] : List String).length ∧
    calculateConfidence { baseFeatures with matchedKeywords := ["a", "b"] } =
      calculateConfidence { baseFeatures with matchedKeywords := ["c", "d"] } :=
  ⟨rfl, (matched_keywords_noninterference baseFeatures ["a", "b"] ["c", "d"]
    .unknown .unknown).2.2.2.2.2.2.2 rfl⟩

/-- The study-type rule list is already sorted by descending priority, so the
stable sort leaves it unchanged. -/
theorem studyTypeRules_sorted :
    List.Sorted (fun a b : StudyTypeRule => b.priority ≤ a.priority)
      STUDY_TYPE_RULES := by
  simp [STUDY_TYPE_RULES, List.sorted_cons]

/-- The detector `detectStudyType` is the first-match scan of the declared rule list. -/
theorem detectStudyType_eq (f : ExtractedFeatures) :
    detectStudyType f = firstMatchingRule STUDY_TYPE_RULES f := by
  unfold detectStudyType
  rw [List.Sorted.insertionSort_eq studyTypeRules_sorted]

/-- C2: a feature record with both the randomization flag and the
instrumental-variable flag set is never classified as `rct`. -/
theorem randomization_iv_not_rct (f : ExtractedFeatures)
    (h1 : f.hasRandomization = true) (h2 : f.hasInstrumentalVariable = true) :
    detectStudyType f ≠ .rct := by
  rw [detectStudyType_eq]
  simp only [firstMatchingRule, STUDY_TYPE_RULES]
  simp [h1, h2]
  split_ifs <;> simp

/-- Witness for C2: randomization + instrument + control group. -/
theorem randomization_iv_not_rct_witness :
    ivRandomFeatures.hasRandomization = true ∧
    ivRandomFeatures.hasInstrumentalVariable = true ∧
    detectStudyType ivRandomFeatures ≠ .rct :=
  ⟨rfl, rfl, randomization_iv_not_rct ivRandomFeatures rfl rfl⟩

/-- C4: the four component scores lie in [0,5], the confidence lies in
[0,1], and the overall grade is one of the five enumeration values. -/
theorem component_scores_bounded (m : CausalMethod) (f : ExtractedFeatures)
    (cs ev mq tr : ℚ) (risks : List RiskItem) :
    (0 ≤ assessCausalStrength m f ∧ assessCausalStrength m f ≤ 5) ∧
    (0 ≤ calculateExternalValidity f ∧ calculateExternalValidity f ≤ 5) ∧
    (0 ≤ calculateMeasurementQuality f ∧ calculateMeasurementQuality f ≤ 5) ∧
    (0 ≤ calculateTransparency f ∧ calculateTransparency f ≤ 5) ∧
    (0 ≤ calculateConfidence f ∧ calculateConfidence f ≤ 1) ∧
    (calculateOverallGrade cs risks ev mq tr = .veryStrong ∨
     calculateOverallGrade cs risks ev mq tr = .strong ∨
     calculateOverallGrade cs risks ev mq tr = .moderate ∨
     calculateOverallGrade cs risks ev mq tr = .weak ∨
     calculateOverallGrade cs risks ev mq tr = .veryWeak) := by
  refine ⟨⟨roundTo1_clamp05_nonneg _, roundTo1_clamp05_le_five _⟩,
          ⟨roundTo1_clamp05_nonneg _, roundTo1_clamp05_le_five _⟩,
          ⟨roundTo1_clamp05_nonneg _, roundTo1_clamp05_le_five _⟩,
          ⟨roundTo1_clamp05_nonneg _, roundTo1_clamp05_le_five _⟩,
          ⟨?_, min_le_left _ _⟩, ?_⟩
  · show (0:ℚ) ≤ min 1 (roundTo2 _)
    have hk : (0:ℚ) ≤ min 0.3 ((f.matchedKeywords.length : ℚ) * 0.03) :=
      le_min (by norm_num) (by positivity)
    refine le_min (by norm_num) (roundTo2_nonneg ?_)
    split_ifs <;> linarith
  · simp only [calculateOverallGrade]
    split_ifs <;> simp

set_option maxHeartbeats 1000000 in
/-- C5: for the randomization rubric, turning on the balance-tests flag (or
the pre-registration flag) alone never decreases the causal-strength
score. -/
theorem randomization_strength_monotone (f : ExtractedFeatures) :
    (f.hasBalanceTests = false →
      assessCausalStrength .randomization f ≤
        assessCausalStrength .randomization { f with hasBalanceTests := true }) ∧
    (f.hasPreRegistration = false →
      assessCausalStrength .randomization f ≤
        assessCausalStrength .randomization { f with hasPreRegistration := true }) := by
  constructor <;> intro h <;>
    (apply roundTo1_clamp05_mono
     simp only [assessCausalStrength, METHOD_RUBRICS, List.foldl_cons, List.foldl_nil]
     simp [h]
     split_ifs <;> norm_num)

/-- Witness for C5: adding balance tests to the empty record. -/
theorem randomization_strength_monotone_witness :
    baseFeatures.hasBalanceTests = false ∧
    assessCausalStrength .randomization baseFeatures ≤
      assessCausalStrength .randomization
        { baseFeatures with hasBalanceTests := true } :=
  ⟨rfl, (randomization_strength_monotone baseFeatures).1 rfl⟩

/-- C8: the follow-up questions are the first five entries of the ordered
checklist, hence never more than five. -/
theorem follow_up_questions_truncated (st : StudyType) (m : CausalMethod)
    (f : ExtractedFeatures) (risks : List RiskItem) :
    generateFollowUpQuestions st m f risks =
      (followUpChecklist st m f risks).take 5 ∧
    (generateFollowUpQuestions st m f risks).length ≤ 5 :=
  ⟨rfl, List.length_take_le _ _⟩

/-- Inserting an element after a prefix none of whose members may follow
it. -/
theorem orderedInsert_append_not {α : Type} (r : α → α → Prop) [DecidableRel r]
    (x : α) (H T : List α) (h : ∀ b ∈ H, ¬ r x b) :
    List.orderedInsert r x (H ++ T) = H ++ List.orderedInsert r x T := by
  induction H with
  | nil => rfl
  | cons a H ih =>
    simp only [List.cons_append, List.orderedInsert]
    rw [if_neg (h a (List.mem_cons_self a H))]
    exact congrArg (a :: ·) (ih (fun b hb => h b (List.mem_cons_of_mem a hb)))

/-- Inserting an element before a list all of whose members may follow it. -/
theorem orderedInsert_forall {α : Type} (r : α → α → Prop) [DecidableRel r]
    (x : α) (T : List α) (h : ∀ b ∈ T, r x b) :
    List.orderedInsert r x T = x :: T := by
  cases T with
  | nil => rfl
  | cons a t =>
    simp only [List.orderedInsert]
    rw [if_pos (h a (List.mem_cons_self a t))]

/-- The stable sort by severity is exactly the three severity buckets in
original relative order. -/
theorem insertionSort_sevLE_buckets (l : List RiskItem) :
    List.insertionSort sevLE l =
      l.filter (fun r => r.severity = .high) ++
      l.filter (fun r => r.severity = .medium) ++
      l.filter (fun r => r.severity = .low) := by
  induction l with
  | nil => rfl
  | cons x l ih =>
    have memHigh : ∀ b ∈ l.filter (fun r => decide (r.severity = Severity.high)),
        b.severity = Severity.high := fun b hb => by
      simpa using (List.mem_filter.mp hb).2
    have memMed : ∀ b ∈ l.filter (fun r => decide (r.severity = Severity.medium)),
        b.severity = Severity.medium := fun b hb => by
      simpa using (List.mem_filter.mp hb).2
    have memLow : ∀ b ∈ l.filter (fun r => decide (r.severity = Severity.low)),
        b.severity = Severity.low := fun b hb => by
      simpa using (List.mem_filter.mp hb).2
    simp only [List.insertionSort, ih]
    cases hx : x.severity with
    | high =>
      have hall : ∀ b ∈ (l.filter (fun r => decide (r.severity = Severity.high)) ++
          l.filter (fun r => decide (r.severity = Severity.medium))) ++
          l.filter (fun r => decide (r.severity = Severity.low)), sevLE x b := by
        intro b _
        unfold sevLE
        rw [hx]
        exact Nat.zero_le _
      rw [orderedInsert_forall sevLE x _ hall]
      simp [List.filter_cons, hx]
    | medium =>
      have h1 : ∀ b ∈ l.filter (fun r => decide (r.severity = Severity.high)),
          ¬ sevLE x b := by
        intro b hb
        unfold sevLE
        rw [hx, memHigh b hb]
        norm_num [severityOrder]
      have h2 : ∀ b ∈ l.filter (fun r => decide (r.severity = Severity.medium)) ++
          l.filter (fun r => decide (r.severity = Severity.low)), sevLE x b := by
        intro b hb
        rcases List.mem_append.mp hb with hb | hb
        · unfold sevLE; rw [hx, memMed b hb]
        · unfold sevLE; rw [hx, memLow b hb]; norm_num [severityOrder]
      rw [List.append_assoc, orderedInsert_append_not sevLE x _ _ h1,
        orderedInsert_forall sevLE x _ h2]
      simp [List.filter_cons, hx]
    | low =>
      have h1 : ∀ b ∈ l.filter (fun r => decide (r.severity = Severity.high)) ++
          l.filter (fun r => decide (r.severity = Severity.medium)), ¬ sevLE x b := by
        intro b hb
        rcases List.mem_append.mp hb with hb | hb
        · unfold sevLE; rw [hx, memHigh b hb]; norm_num [severityOrder]
        · unfold sevLE; rw [hx, memMed b hb]; norm_num [severityOrder]
      have h2 : ∀ b ∈ l.filter (fun r => decide (r.severity = Severity.low)),
          sevLE x b := by
        intro b hb
        unfold sevLE
        rw [hx, memLow b hb]
      rw [orderedInsert_append_not sevLE x _ _ h1,
        orderedInsert_forall sevLE x _ h2]
      simp [List.filter_cons, hx]

/-- C3: the risk list is the emitted risks bucketed high → medium → low,
keeping catalogue order inside each bucket, and is therefore sorted by
descending severity. -/
theorem identifyThreats_sorted_stable (st : StudyType) (m : CausalMethod)
    (f : ExtractedFeatures) :
    identifyThreats st m f =
      (emittedRisks st m f).filter (fun r => r.severity = .high) ++
      (emittedRisks st m f).filter (fun r => r.severity = .medium) ++
      (emittedRisks st m f).filter (fun r => r.severity = .low) ∧
    (identifyThreats st m f).Pairwise sevLE :=
  ⟨insertionSort_sevLE_buckets _, List.sorted_insertionSort _ _⟩

/-- Membership in the sorted risk list is membership in the emitted list. -/
theorem mem_identifyThreats {st : StudyType} {m : CausalMethod}
    {f : ExtractedFeatures} {r : RiskItem} :
    r ∈ identifyThreats st m f ↔ r ∈ emittedRisks st m f :=
  (List.perm_insertionSort sevLE _).mem_iff

/-- An emitted risk item always carries its threat definition's name. -/
theorem emitThreat_name {st : StudyType} {m : CausalMethod}
    {f : ExtractedFeatures} {t : ThreatDefinition} {r : RiskItem}
    (h : emitThreat st m f t = some r) : r.risk = t.name := by
  unfold emitThreat at h
  split at h
  · cases hc : t.checkSeverity f st with
    | none => rw [hc] at h; simp at h
    | some sev =>
      rw [hc] at h
      simp only [Option.map_some', Option.some.injEq] at h
      rw [← h]
  · simp at h

/-- C6: for the three observational study types and matching the risk list
contains an "Unobserved confounding" item whose severity is medium exactly
when a sensitivity analysis is present, and no other study type ever gets
that item. -/
theorem unobserved_confounding_emission (st : StudyType) (m : CausalMethod)
    (f : ExtractedFeatures) :
    (st ∈ [StudyType.observational_cohort, StudyType.observational_cross_sectional,
           StudyType.observational_case_control, StudyType.quasi_experimental_matching] →
      ∃ r ∈ identifyThreats st m f,
        r.risk = "Unobserved confounding" ∧
        r.severity = (if f.hasSensitivityAnalysis then Severity.medium else Severity.high)) ∧
    (st ∉ [StudyType.observational_cohort, StudyType.observational_cross_sectional,
           StudyType.observational_case_control, StudyType.quasi_experimental_matching] →
      ∀ r ∈ identifyThreats st m f, r.risk ≠ "Unobserved confounding") := by
  constructor
  · intro hst
    refine ⟨⟨"Unobserved confounding",
            if f.hasSensitivityAnalysis then Severity.medium else Severity.high,
            threatUnobservedConfounding.reasoning f⟩, ?_, rfl, rfl⟩
    rw [mem_identifyThreats]
    refine List.mem_filterMap.mpr ⟨threatUnobservedConfounding, ?_, ?_⟩
    · simp [THREAT_DEFINITIONS]
    · unfold emitThreat
      rw [if_pos ⟨by simpa [threatUnobservedConfounding, appliesToStudy] using hst,
        by simp [threatUnobservedConfounding]⟩]
      cases hs : f.hasSensitivityAnalysis <;>
        simp [threatUnobservedConfounding, hs]
  · intro hst r hr
    rw [mem_identifyThreats] at hr
    obtain ⟨t, ht, he⟩ := List.mem_filterMap.mp hr
    have hname := emitThreat_name he
    simp only [THREAT_DEFINITIONS, List.mem_cons, List.not_mem_nil, or_false] at ht
    rcases ht with h | h | h | h | h | h | h | h | h | h | h | h <;> subst h <;>
      first
      | (rw [hname]; decide)
      | (exfalso
         have hcond : ¬ (appliesToStudy threatUnobservedConfounding.applicableTo st ∧
             m ∉ threatUnobservedConfounding.excludedMethods) := by
           simp [threatUnobservedConfounding, appliesToStudy, hst]
         unfold emitThreat at he
         rw [if_neg hcond] at he
         exact Option.noConfusion he)

/-- Witness for C6 at an observational cohort with no sensitivity
analysis. -/
theorem unobserved_confounding_emission_witness :
    (StudyType.observational_cohort ∈
      [StudyType.observational_cohort, StudyType.observational_cross_sectional,
       StudyType.observational_case_control, StudyType.quasi_experimental_matching]) ∧
    ∃ r ∈ identifyThreats .observational_cohort .selection_on_observables baseFeatures,
      r.risk = "Unobserved confounding" ∧
      r.severity =
        (if baseFeatures.hasSensitivityAnalysis then Severity.medium else Severity.high) :=
  ⟨by decide,
   (unobserved_confounding_emission .observational_cohort .selection_on_observables
      baseFeatures).1 (by decide)⟩

end EvidenceStrength
